import Mathlib

/-!
Verification of the user-profile personalization store of the repository
(`src/user_profile.py`): the `UserProfile` record, the
`UserProfileManager` store with its JSON persistence, the mock-data
population, and the personalization-context builder.

Modelling conventions (shallow embedding):
* Python `datetime` values are modelled as `Nat` tick counts (microseconds
  since the epoch).  `datetime.isoformat` / `datetime.fromisoformat` are
  modelled as an injective decimal text encoding with a proven round trip,
  mirroring the exact round trip Python guarantees for these two functions;
  `fromisoformat` fails (raises) on text that is not a valid encoding,
  modelled by `Option`.
* `datetime.now()` is nondeterministic; every operation that calls it takes
  the current time as an explicit `now : Nat` parameter.  The two `now()`
  calls inside `UserProfile.__init__` are modelled as returning the same
  tick (their difference is never observed by any claim).
* `random.choice` / `random.sample` / the generated `uuid` user id are
  nondeterministic; they are passed in as an explicit `MockChoice` record
  (resp. a `genId : String` parameter) constrained by `ValidChoice`
  (resp. `GeneratedId`), which captures exactly the outcomes the random
  sources can produce.
* Python values reaching profile attributes through the `**kwargs` update
  are dynamically typed; the embedding uses a `Value` sum of the shapes the
  program stores (strings, integers as `Nat`, lists of strings, with
  datetimes carried as ticks).  An assignment of a `Value` of the wrong
  shape to a declared field is left as a no-op in the model; no claim
  exercises such an assignment.
* A Python instance also exposes its class attributes (the methods) to
  `hasattr`, and `setattr` on such a name creates an instance attribute
  shadowing the method.  The record field `extraAttrs` holds those shadow
  attributes; `classAttrNames` lists the attributes `UserProfile` itself
  declares besides the data fields.  (Inherited `object` dunders behave the
  same way; listing the class's own methods suffices for the claims.)
* The backing JSON file is modelled by the `StoredFile` field of the
  manager: `save_profiles` overwrites it with the serialized mapping.  The
  code absorbs I/O failures on write with a warning and no state change;
  the model shows the successful write, and read/parse failures are the
  `unreadable` constructor.
-/

/-! ### Timestamp encoding (`datetime.isoformat` / `datetime.fromisoformat`) -/

def digitChar (d : Nat) : Char := Char.ofNat (48 + d)

def charDigit (c : Char) : Nat := c.toNat - 48

/-- Model of `datetime.isoformat`: an injective text encoding of the tick
count (decimal, most significant digit first). -/
def isoformat (t : Nat) : String :=
  String.mk (((Nat.digits 10 t).reverse).map digitChar)

/-- Model of `datetime.fromisoformat`: decodes the text produced by
`isoformat`, failing on any other text (Python raises `ValueError`). -/
def fromisoformat (s : String) : Option Nat :=
  if s.data.all (fun c => c.isDigit) then
    some (Nat.ofDigits 10 ((s.data.map charDigit).reverse))
  else none

theorem charDigit_digitChar {d : Nat} (hd : d < 10) :
    charDigit (digitChar d) = d := by
  interval_cases d <;> rfl

theorem isDigit_digitChar {d : Nat} (hd : d < 10) :
    (digitChar d).isDigit = true := by
  interval_cases d <;> rfl

theorem fromisoformat_isoformat (t : Nat) :
    fromisoformat (isoformat t) = some t := by
  have hlt : ∀ d ∈ Nat.digits 10 t, d < 10 := fun d hd =>
    Nat.digits_lt_base (by norm_num) hd
  have hall : ((Nat.digits 10 t).reverse.map digitChar).all
      (fun c => c.isDigit) = true := by
    rw [List.all_eq_true]
    intro c hc
    rcases List.mem_map.mp hc with ⟨d, hd, rfl⟩
    exact isDigit_digitChar (hlt d (List.mem_reverse.mp hd))
  have hdata : (isoformat t).data = (Nat.digits 10 t).reverse.map digitChar := rfl
  rw [fromisoformat, hdata, if_pos hall]
  have hmap : ((Nat.digits 10 t).reverse.map digitChar).map charDigit
      = (Nat.digits 10 t).reverse := by
    rw [List.map_map]
    apply List.map_congr_left ?_ |>.trans (List.map_id _)
    intro d hd
    exact charDigit_digitChar (hlt d (List.mem_reverse.mp hd))
  rw [hmap, List.reverse_reverse, Nat.ofDigits_digits]

/-! ### Dynamically typed attribute values -/

/-- The shapes of Python values the profile code stores in attributes:
strings, non-negative integers, lists of strings; datetimes are carried as
tick counts (see the header). -/
inductive Value where
  | str (s : String)
  | num (n : Nat)
  | strList (l : List String)
  deriving Repr, DecidableEq

/-! ### `UserProfile` -/

/-- The `UserProfile` class of `src/user_profile.py`.  The ten data fields
are the instance attributes `__init__` creates; `extraAttrs` holds instance
attributes created by `setattr` on names that are not data fields (shadowing
class attributes) — empty on every freshly constructed profile. -/
structure UserProfile where
  user_id : String
  name : String
  city : String
  interests : List String
  profession : String
  expertise_level : String
  preferred_topics : List String
  created_at : Nat
  last_updated : Nat
  interaction_count : Nat
  extraAttrs : List (String × Value)
  deriving Repr, DecidableEq

/-- The instance attributes `UserProfile.__init__` declares (the dict keys
of `to_dict`). -/
def declaredFields : List String :=
  ["user_id", "name", "city", "interests", "profession", "expertise_level",
   "preferred_topics", "created_at", "last_updated", "interaction_count"]

/-- The attributes the `UserProfile` class body declares besides the data
fields: its methods.  `hasattr(profile, k)` is true for these names too. -/
def classAttrNames : List String :=
  ["_generate_user_id", "update_profile", "increment_interaction",
   "get_personalization_context", "to_dict", "from_dict"]

/-- Python dict assignment `d[k] = v` on an association list: replaces the
value at an existing key in place, appends otherwise. -/
def dictSet {α : Type} (l : List (String × α)) (k : String) (v : α) :
    List (String × α) :=
  if (l.lookup k).isSome then
    l.map (fun kv => if kv.1 = k then (k, v) else kv)
  else l ++ [(k, v)]

/-- `UserProfile.__init__(user_id)`: `user_id or self._generate_user_id()` —
a falsy (`None` or empty) argument triggers generation.  `uid = none` models
the `None` default; both `now()` calls are modelled by the single `now`. -/
def UserProfile.init (uid : Option String) (genId : String) (now : Nat) :
    UserProfile :=
  { user_id := match uid with
      | some u => if u = "" then genId else u
      | none => genId
    name := ""
    city := ""
    interests := []
    profession := ""
    expertise_level := "beginner"
    preferred_topics := []
    created_at := now
    last_updated := now
    interaction_count := 0
    extraAttrs := [] }

/-- One iteration of the `update_profile` loop:
`if hasattr(self, key): setattr(self, key, value)`.  A declared field is
assigned when the value has its shape (see the header on ill-typed
assignments); a key naming a class attribute or an existing shadow attribute
creates/overwrites a shadow attribute; any other key fails `hasattr` and is
ignored. -/
def setAttr (p : UserProfile) : String × Value → UserProfile
  | (k, v) =>
    if k = "user_id" then
      match v with | .str s => { p with user_id := s } | _ => p
    else if k = "name" then
      match v with | .str s => { p with name := s } | _ => p
    else if k = "city" then
      match v with | .str s => { p with city := s } | _ => p
    else if k = "interests" then
      match v with | .strList l => { p with interests := l } | _ => p
    else if k = "profession" then
      match v with | .str s => { p with profession := s } | _ => p
    else if k = "expertise_level" then
      match v with | .str s => { p with expertise_level := s } | _ => p
    else if k = "preferred_topics" then
      match v with | .strList l => { p with preferred_topics := l } | _ => p
    else if k = "created_at" then
      match v with | .num n => { p with created_at := n } | _ => p
    else if k = "last_updated" then
      match v with | .num n => { p with last_updated := n } | _ => p
    else if k = "interaction_count" then
      match v with | .num n => { p with interaction_count := n } | _ => p
    else if k ∈ classAttrNames ∨ (p.extraAttrs.lookup k).isSome then
      { p with extraAttrs := dictSet p.extraAttrs k v }
    else p

/-- `UserProfile.update_profile(**kwargs)`: applies each key/value pair
through the `hasattr` guard, then sets `last_updated = datetime.now()`. -/
def UserProfile.update_profile (p : UserProfile)
    (kwargs : List (String × Value)) (now : Nat) : UserProfile :=
  { kwargs.foldl setAttr p with last_updated := now }

/-- `UserProfile.increment_interaction()`. -/
def UserProfile.increment_interaction (p : UserProfile) : UserProfile :=
  { p with interaction_count := p.interaction_count + 1 }

/-- `UserProfile.get_personalization_context()`. -/
def UserProfile.get_personalization_context (p : UserProfile) : String :=
  if p.name = "" then ""
  else
    let context_parts : List String :=
      ["You\x27re helping " ++ p.name]
      ++ (if p.city ≠ "" then ["from " ++ p.city] else [])
      ++ (if p.profession ≠ "" then ["who works as a " ++ p.profession] else [])
      ++ (if p.interests ≠ [] then
            ["who likes " ++ String.intercalate ", " (p.interests.take 3)]
          else [])
      ++ (if p.expertise_level ≠ "beginner" then
            ["with " ++ p.expertise_level ++ " expertise"] else [])
      ++ (if p.preferred_topics ≠ [] then
            ["and prefers topics like "
              ++ String.intercalate ", " (p.preferred_topics.take 2)]
          else [])
    String.intercalate " " context_parts
      ++ ". Personalize examples and explanations accordingly."

/-! ### Serialization (`to_dict` / `from_dict`) -/

/-- The JSON object `UserProfile.to_dict` produces (one value per key;
timestamps as their `isoformat` text).  `from_dict` reads the same keys
with `data.get(...)` defaults; the stored file always carries every key, so
the model keeps the dictionary total. -/
structure ProfileDict where
  user_id : String
  name : String
  city : String
  interests : List String
  profession : String
  expertise_level : String
  preferred_topics : List String
  created_at : String
  last_updated : String
  interaction_count : Nat
  deriving Repr, DecidableEq

/-- `UserProfile.to_dict()`: only the ten declared fields are serialized
(shadow attributes are not part of the dictionary). -/
def UserProfile.to_dict (p : UserProfile) : ProfileDict :=
  { user_id := p.user_id
    name := p.name
    city := p.city
    interests := p.interests
    profession := p.profession
    expertise_level := p.expertise_level
    preferred_topics := p.preferred_topics
    created_at := isoformat p.created_at
    last_updated := isoformat p.last_updated
    interaction_count := p.interaction_count }

/-- `UserProfile.from_dict(data)`: `cls(data.get("user_id"))` runs
`__init__`, so a falsy stored `user_id` is replaced by a generated one;
`datetime.fromisoformat` raises (here: `none`) on unparseable timestamp
text. -/
def UserProfile.from_dict (genId : String) (d : ProfileDict) :
    Option UserProfile := do
  let created ← fromisoformat d.created_at
  let updated ← fromisoformat d.last_updated
  let base := UserProfile.init (some d.user_id) genId 0
  pure { base with
    name := d.name
    city := d.city
    interests := d.interests
    profession := d.profession
    expertise_level := d.expertise_level
    preferred_topics := d.preferred_topics
    created_at := created
    last_updated := updated
    interaction_count := d.interaction_count }

/-- `_generate_user_id` returns `str(uuid.uuid4())[:8]`: a `uuid4` string
has 36 characters, so the generated id always has exactly 8 characters. -/
def GeneratedId (genId : String) : Prop := genId.length = 8

/-! ### Mock-data population (`_populate_mock_data`) -/

def mockNames : List String :=
  ["Alex", "Sam", "Jordan", "Taylor", "Casey", "Morgan", "Riley", "Quinn"]

def mockCities : List String :=
  ["San Francisco", "New York", "London", "Tokyo", "Berlin", "Sydney",
   "Toronto", "Paris"]

def allInterests : List String :=
  ["artificial intelligence", "machine learning", "data science",
   "web development", "mobile apps", "cybersecurity", "blockchain",
   "cloud computing", "IoT", "robotics", "quantum computing",
   "biotechnology", "renewable energy", "space exploration", "music",
   "photography", "cooking", "travel", "fitness", "reading"]

def mockProfessions : List String :=
  ["software engineer", "data scientist", "product manager", "designer",
   "researcher", "consultant", "entrepreneur", "student", "teacher",
   "analyst"]

def expertiseLevels : List String := ["beginner", "intermediate", "expert"]

def techTopics : List String :=
  ["AI and machine learning", "web development", "data analysis",
   "cybersecurity", "cloud computing", "mobile development", "DevOps"]

/-- One outcome of the random draws `_populate_mock_data` performs:
indices for the four `random.choice` calls and the two `random.sample`
results. -/
structure MockChoice where
  nameI : Nat
  cityI : Nat
  professionI : Nat
  expertiseI : Nat
  inters : List String
  topics : List String
  deriving Repr, DecidableEq

/-- The outcomes the random sources can actually produce: in-range choice
indices; `random.sample(pop, k)` draws `k` distinct elements of `pop`
(`2 ≤ k ≤ 4` interests, `1 ≤ k ≤ 3` topics). -/
def ValidChoice (c : MockChoice) : Prop :=
  c.nameI < mockNames.length ∧ c.cityI < mockCities.length ∧
  c.professionI < mockProfessions.length ∧
  c.expertiseI < expertiseLevels.length ∧
  c.inters.Nodup ∧ (∀ x ∈ c.inters, x ∈ allInterests) ∧
  2 ≤ c.inters.length ∧ c.inters.length ≤ 4 ∧
  c.topics.Nodup ∧ (∀ x ∈ c.topics, x ∈ techTopics) ∧
  1 ≤ c.topics.length ∧ c.topics.length ≤ 3

instance (c : MockChoice) : Decidable (ValidChoice c) := by
  unfold ValidChoice; infer_instance

/-- `UserProfileManager._populate_mock_data(profile)` at the random outcome
`c`. -/
def populate_mock_data (p : UserProfile) (c : MockChoice) : UserProfile :=
  { p with
    name := mockNames.getD c.nameI ""
    city := mockCities.getD c.cityI ""
    interests := c.inters
    profession := mockProfessions.getD c.professionI ""
    expertise_level := expertiseLevels.getD c.expertiseI ""
    preferred_topics := c.topics }

/-! ### The manager and its backing file -/

/-- The state of the backing JSON file as `load_profiles` sees it:
absent, present but failing to read or to parse as JSON, or parsed into
a JSON object of profile dictionaries (insertion-ordered). -/
inductive StoredFile where
  | missing
  | unreadable
  | parsed (entries : List (String × ProfileDict))
  deriving Repr, DecidableEq

/-- The `UserProfileManager`: the in-memory mapping plus the modelled
backing file. -/
structure UserProfileManager where
  storage_file : String
  profiles : List (String × UserProfile)
  file : StoredFile
  deriving Repr, DecidableEq

/-- `UserProfileManager.load_profiles()`: a missing file leaves the mapping
as it was (`{}` at construction, the only call site); any exception while
reading, parsing, or rebuilding a record resets the mapping to `{}` — no
partial state.  `genId` feeds the `__init__` call inside `from_dict`. -/
def load_profiles (prior : List (String × UserProfile)) (f : StoredFile)
    (genId : String) : List (String × UserProfile) :=
  match f with
  | .missing => prior
  | .unreadable => []
  | .parsed entries =>
    match entries.mapM
        (fun kv => (UserProfile.from_dict genId kv.2).map ((kv.1, ·))) with
    | some ps => ps
    | none => []

/-- `UserProfileManager.__init__(storage_file)`. -/
def UserProfileManager.init (storage_file : String) (f : StoredFile)
    (genId : String) : UserProfileManager :=
  { storage_file := storage_file
    profiles := load_profiles [] f genId
    file := f }

/-- `UserProfileManager.save_profiles()`: serializes the entire mapping and
overwrites the backing file (the successful-write path; a failing write is
absorbed with a warning and changes nothing). -/
def UserProfileManager.save_profiles (m : UserProfileManager) :
    UserProfileManager :=
  { m with
    file := .parsed (m.profiles.map (fun kv => (kv.1, kv.2.to_dict))) }

/-- The create branch of `get_or_create_profile` (the code below the
`# Create new profile with mock data` comment): build, mock-populate,
insert under the profile's own id, save. -/
def UserProfileManager.create_new_profile (m : UserProfileManager)
    (uid : Option String) (now : Nat) (genId : String) (c : MockChoice) :
    UserProfile × UserProfileManager :=
  let p := populate_mock_data (UserProfile.init uid genId now) c
  (p, ({ m with profiles := dictSet m.profiles p.user_id p }).save_profiles)

/-- `UserProfileManager.get_or_create_profile(user_id)`: a truthy
(non-`None`, non-empty), known id is incremented and returned — no save, no
`last_updated` touch; otherwise the create branch runs. -/
def UserProfileManager.get_or_create_profile (m : UserProfileManager)
    (uid : Option String) (now : Nat) (genId : String) (c : MockChoice) :
    UserProfile × UserProfileManager :=
  match uid with
  | some u =>
    if u = "" then m.create_new_profile uid now genId c
    else
      match m.profiles.lookup u with
      | some p =>
        let p' := p.increment_interaction
        (p', { m with profiles := dictSet m.profiles u p' })
      | none => m.create_new_profile uid now genId c
  | none => m.create_new_profile uid now genId c

/-- `UserProfileManager.update_profile(user_id, **kwargs)`. -/
def UserProfileManager.update_profile (m : UserProfileManager)
    (uid : String) (kwargs : List (String × Value)) (now : Nat) :
    Bool × UserProfileManager :=
  match m.profiles.lookup uid with
  | some p =>
    let p' := p.update_profile kwargs now
    (true, ({ m with profiles := dictSet m.profiles uid p' }).save_profiles)
  | none => (false, m)

/-! ### Association-list lemmas -/

theorem lookup_cons_self {α : Type} (k : String) (v : α)
    (t : List (String × α)) : (((k, v) :: t).lookup k) = some v := by
  rw [List.lookup_cons]
  simp

theorem lookup_cons_ne {α : Type} {k a : String} (h : ¬k = a) (v : α)
    (t : List (String × α)) : (((a, v) :: t).lookup k) = t.lookup k := by
  rw [List.lookup_cons, beq_false_of_ne h]

theorem lookup_map_replace_self {α : Type} (l : List (String × α))
    (k : String) (v : α) (h : (l.lookup k).isSome) :
    (l.map (fun kv => if kv.1 = k then (k, v) else kv)).lookup k = some v := by
  induction l with
  | nil => simp at h
  | cons a t ih =>
    obtain ⟨a1, a2⟩ := a
    by_cases hak : a1 = k
    · subst hak
      simp only [List.map_cons, if_pos rfl]
      exact lookup_cons_self a1 v _
    · have hk : ¬k = a1 := fun hh => hak hh.symm
      rw [lookup_cons_ne hk] at h
      simp only [List.map_cons, if_neg hak]
      rw [lookup_cons_ne hk]
      exact ih h

theorem lookup_map_replace_ne {α : Type} (l : List (String × α))
    {k k' : String} (v : α) (hne : ¬k' = k) :
    (l.map (fun kv => if kv.1 = k then (k, v) else kv)).lookup k'
      = l.lookup k' := by
  induction l with
  | nil => rfl
  | cons a t ih =>
    obtain ⟨a1, a2⟩ := a
    by_cases hak : a1 = k
    · subst hak
      simp only [List.map_cons]
      rw [if_pos trivial]
      rw [lookup_cons_ne hne, lookup_cons_ne hne]
      exact ih
    · simp only [List.map_cons, if_neg hak]
      by_cases hk'a : k' = a1
      · subst hk'a
        rw [lookup_cons_self, lookup_cons_self]
      · rw [lookup_cons_ne hk'a, lookup_cons_ne hk'a]
        exact ih

theorem lookup_append_single {α : Type} (l : List (String × α))
    (k k' : String) (v : α) :
    (l ++ [(k, v)]).lookup k' =
      (match l.lookup k' with
        | some w => some w
        | none => if k' = k then some v else none) := by
  induction l with
  | nil =>
    by_cases h : k' = k
    · subst h; simp [lookup_cons_self]
    · simp [lookup_cons_ne h, h]
  | cons a t ih =>
    obtain ⟨a1, a2⟩ := a
    by_cases h : k' = a1
    · subst h; simp [lookup_cons_self]
    · rw [List.cons_append, lookup_cons_ne h, lookup_cons_ne h]
      exact ih

theorem lookup_dictSet_self {α : Type} (l : List (String × α)) (k : String)
    (v : α) : (dictSet l k v).lookup k = some v := by
  unfold dictSet
  by_cases h : (l.lookup k).isSome
  · rw [if_pos h]
    exact lookup_map_replace_self l k v h
  · rw [if_neg h, lookup_append_single]
    rw [Option.not_isSome_iff_eq_none] at h
    rw [h]
    simp

theorem lookup_dictSet_ne {α : Type} (l : List (String × α))
    {k k' : String} (v : α) (hne : ¬k' = k) :
    (dictSet l k v).lookup k' = l.lookup k' := by
  unfold dictSet
  by_cases h : (l.lookup k).isSome
  · rw [if_pos h]
    exact lookup_map_replace_ne l v hne
  · rw [if_neg h, lookup_append_single]
    cases hl : l.lookup k' with
    | some w => rfl
    | none => simp [hne]

theorem keys_dictSet_of_mem {α : Type} (l : List (String × α))
    (k : String) (v : α) (h : (l.lookup k).isSome) :
    (dictSet l k v).map Prod.fst = l.map Prod.fst := by
  unfold dictSet
  rw [if_pos h, List.map_map]
  apply List.map_congr_left
  intro kv _
  by_cases hkv : kv.1 = k <;> simp [hkv]

/-! ### Concrete fixtures for witnesses and counterexamples -/

/-- A plain profile with only `name` set (as the example "u1"/"Sam" flow
produces after creation with empty optional fields). -/
def samProfile : UserProfile :=
  { user_id := "u1", name := "Sam", city := "", interests := [],
    profession := "", expertise_level := "beginner", preferred_topics := [],
    created_at := 3, last_updated := 5, interaction_count := 2,
    extraAttrs := [] }

/-- A store holding exactly `samProfile` under "u1", backing file absent. -/
def samManager : UserProfileManager :=
  { storage_file := "user_profiles.json",
    profiles := [("u1", samProfile)], file := .missing }

/-- One concrete outcome of the mock-data random draws. -/
def mockChoiceA : MockChoice :=
  { nameI := 1, cityI := 0, professionI := 8, expertiseI := 0,
    inters := ["music", "cooking"], topics := ["DevOps"] }

/-- A profile whose `user_id` is the empty string (reachable through
`update_profile`, whose `user_id` key is a declared field). -/
def emptyIdProfile : UserProfile :=
  { user_id := "", name := "Sam", city := "", interests := [],
    profession := "", expertise_level := "beginner", preferred_topics := [],
    created_at := 3, last_updated := 5, interaction_count := 2,
    extraAttrs := [] }

/-- A stored profile dictionary whose `created_at` text fails to parse. -/
def badDict : ProfileDict :=
  { user_id := "u1", name := "", city := "", interests := [],
    profession := "", expertise_level := "beginner", preferred_topics := [],
    created_at := "not-a-timestamp", last_updated := "0",
    interaction_count := 0 }

/-! ### Claims -/

/-- Claim C1: for a user id already present in the store,
`get_or_create_profile` returns that user's profile with
`interaction_count` exactly one greater than before, leaves `user_id` and
`created_at` (and every other field) unchanged, stores the returned profile
under the same id, and inserts no new profile (the key list of the mapping
is unchanged). -/
theorem C1_get_or_create_known (m : UserProfileManager) (u : String)
    (p : UserProfile) (now : Nat) (genId : String) (c : MockChoice)
    (hu : ¬u = "") (hp : m.profiles.lookup u = some p) :
    (m.get_or_create_profile (some u) now genId c).1
        = { p with interaction_count := p.interaction_count + 1 }
    ∧ ((m.get_or_create_profile (some u) now genId c).2).profiles.lookup u
        = some { p with interaction_count := p.interaction_count + 1 }
    ∧ ((m.get_or_create_profile (some u) now genId c).2).profiles.map
          Prod.fst
        = m.profiles.map Prod.fst := by
  simp only [UserProfileManager.get_or_create_profile, if_neg hu, hp]
  refine ⟨rfl, ?_, ?_⟩
  · exact lookup_dictSet_self _ _ _
  · exact keys_dictSet_of_mem _ _ _ (by rw [hp]; rfl)

/-- Witness for C1: the hypotheses hold and the conclusion follows at the
concrete store `samManager`. -/
theorem C1_get_or_create_known_witness :
    (¬"u1" = "") ∧ samManager.profiles.lookup "u1" = some samProfile ∧
    ((samManager.get_or_create_profile (some "u1") 9 "aaaabbbb"
        mockChoiceA).1
      = { samProfile with
            interaction_count := samProfile.interaction_count + 1 }
    ∧ ((samManager.get_or_create_profile (some "u1") 9 "aaaabbbb"
          mockChoiceA).2).profiles.lookup "u1"
      = some { samProfile with
            interaction_count := samProfile.interaction_count + 1 }
    ∧ ((samManager.get_or_create_profile (some "u1") 9 "aaaabbbb"
          mockChoiceA).2).profiles.map Prod.fst
      = samManager.profiles.map Prod.fst) :=
  ⟨by decide, rfl,
    C1_get_or_create_known samManager "u1" samProfile 9 "aaaabbbb"
      mockChoiceA (by decide) rfl⟩

/-- Claim C9: updating an unknown user id returns failure (`false`) without
raising, creates no profile, and leaves the manager — mapping and backing
file — entirely unchanged. -/
theorem C9_update_unknown (m : UserProfileManager) (uid : String)
    (kwargs : List (String × Value)) (now : Nat)
    (h : m.profiles.lookup uid = none) :
    m.update_profile uid kwargs now = (false, m) := by
  unfold UserProfileManager.update_profile
  rw [h]

/-- Witness for C9: "zz" is not in `samManager`, and updating it is a
failing no-op. -/
theorem C9_update_unknown_witness :
    samManager.profiles.lookup "zz" = none ∧
    samManager.update_profile "zz" [("city", .str "Lahore")] 7
      = (false, samManager) :=
  ⟨rfl, C9_update_unknown samManager "zz" [("city", .str "Lahore")] 7 rfl⟩

/-- Claim C10: for a known user id, an update with an empty field map still
returns success, sets the profile's `last_updated` to the time of the call,
and persists the whole serialized mapping to the backing file. -/
theorem C10_update_empty_kwargs (m : UserProfileManager) (uid : String)
    (p : UserProfile) (now : Nat) (hp : m.profiles.lookup uid = some p) :
    (m.update_profile uid [] now).1 = true
    ∧ ((m.update_profile uid [] now).2).profiles.lookup uid
        = some { p with last_updated := now }
    ∧ ((m.update_profile uid [] now).2).file
        = .parsed (((m.update_profile uid [] now).2).profiles.map
            (fun kv => (kv.1, kv.2.to_dict))) := by
  unfold UserProfileManager.update_profile
  rw [hp]
  exact ⟨rfl, lookup_dictSet_self _ _ _, rfl⟩

/-- Witness for C10 at the concrete store `samManager`. -/
theorem C10_update_empty_kwargs_witness :
    samManager.profiles.lookup "u1" = some samProfile ∧
    ((samManager.update_profile "u1" [] 7).1 = true
    ∧ ((samManager.update_profile "u1" [] 7).2).profiles.lookup "u1"
        = some { samProfile with last_updated := 7 }
    ∧ ((samManager.update_profile "u1" [] 7).2).file
        = .parsed (((samManager.update_profile "u1" [] 7).2).profiles.map
            (fun kv => (kv.1, kv.2.to_dict)))) :=
  ⟨rfl, C10_update_empty_kwargs samManager "u1" samProfile 7 rfl⟩

/-- Claim C2 as stated is false on the code: at the concrete store
`samManager`, the known-id call to `get_or_create_profile` at mutation time
99 does mutate the profile (the interaction count rises to 3), yet the
returned profile's `last_updated` is still 5 — not the mutation time — and
the backing file is still absent: nothing was persisted. -/
theorem C2_counterexample :
    ((samManager.get_or_create_profile (some "u1") 99 "aaaabbbb"
        mockChoiceA).1).interaction_count
      = samProfile.interaction_count + 1
    ∧ ((samManager.get_or_create_profile (some "u1") 99 "aaaabbbb"
        mockChoiceA).1).last_updated = 5
    ∧ ¬(5 : Nat) = 99
    ∧ ((samManager.get_or_create_profile (some "u1") 99 "aaaabbbb"
        mockChoiceA).2).file = .missing :=
  ⟨rfl, rfl, by decide, rfl⟩

/-- Claim C2, amended: explicit field updates through `update_profile` set
`last_updated` to the mutation time and persist the entire serialized
mapping, but the `interaction_count` increment performed by
`get_or_create_profile` on a known user id neither touches `last_updated`
nor writes the backing file. -/
theorem C2_amended_persistence (m : UserProfileManager) (uid : String)
    (p : UserProfile) (kwargs : List (String × Value)) (now : Nat)
    (genId : String) (c : MockChoice)
    (hp : m.profiles.lookup uid = some p) (hu : ¬uid = "") :
    (((m.update_profile uid kwargs now).2).profiles.lookup uid
        = some (p.update_profile kwargs now)
      ∧ (p.update_profile kwargs now).last_updated = now
      ∧ ((m.update_profile uid kwargs now).2).file
          = .parsed (((m.update_profile uid kwargs now).2).profiles.map
              (fun kv => (kv.1, kv.2.to_dict))))
    ∧ (((m.get_or_create_profile (some uid) now genId c).1).last_updated
        = p.last_updated
      ∧ ((m.get_or_create_profile (some uid) now genId c).2).file
        = m.file) := by
  constructor
  · unfold UserProfileManager.update_profile
    rw [hp]
    exact ⟨lookup_dictSet_self _ _ _, rfl, rfl⟩
  · simp only [UserProfileManager.get_or_create_profile, if_neg hu, hp]
    exact ⟨rfl, trivial⟩

/-- Witness for the amended C2 at the concrete store `samManager`. -/
theorem C2_amended_persistence_witness :
    samManager.profiles.lookup "u1" = some samProfile ∧ (¬"u1" = "") ∧
    ((((samManager.update_profile "u1" [("city", .str "Lahore")] 7).2
          ).profiles.lookup "u1"
        = some (samProfile.update_profile [("city", .str "Lahore")] 7)
      ∧ (samProfile.update_profile [("city", .str "Lahore")] 7).last_updated
          = 7
      ∧ ((samManager.update_profile "u1" [("city", .str "Lahore")] 7).2).file
          = .parsed (((samManager.update_profile "u1"
              [("city", .str "Lahore")] 7).2).profiles.map
              (fun kv => (kv.1, kv.2.to_dict))))
    ∧ (((samManager.get_or_create_profile (some "u1") 7 "aaaabbbb"
          mockChoiceA).1).last_updated = samProfile.last_updated
      ∧ ((samManager.get_or_create_profile (some "u1") 7 "aaaabbbb"
          mockChoiceA).2).file = samManager.file)) :=
  ⟨rfl, by decide,
    C2_amended_persistence samManager "u1" samProfile
      [("city", .str "Lahore")] 7 "aaaabbbb" mockChoiceA rfl (by decide)⟩

/-- Claim C3 as stated is false on the code: "to_dict" names no declared
profile field, yet passing it to update is not ignored — the `hasattr`
guard accepts it because it names a method, and `setattr` then creates an
instance attribute of that name on the profile. -/
theorem C3_counterexample :
    ¬"to_dict" ∈ declaredFields
    ∧ ((((samManager.update_profile "u1" [("to_dict", .str "x")] 7).2
          ).profiles.lookup "u1").map UserProfile.extraAttrs)
        = some [("to_dict", Value.str "x")] :=
  ⟨by decide, rfl⟩

/-- Claim C3, amended: a key naming no attribute of the profile object at
all — neither a declared field, nor a class attribute (method), nor an
existing shadow attribute — is silently ignored and sets nothing; but a
non-field key naming a class attribute (such as the method names) passes
the `hasattr` guard and does set an instance attribute, leaving the ten
declared fields (other than `last_updated`) unchanged. -/
theorem C3_amended_hasattr_guard (p : UserProfile) (k : String) (v : Value)
    (now : Nat) (hd : ¬k ∈ declaredFields) :
    (¬(k ∈ classAttrNames ∨ (p.extraAttrs.lookup k).isSome) →
      p.update_profile [(k, v)] now = { p with last_updated := now })
    ∧ ((k ∈ classAttrNames ∨ (p.extraAttrs.lookup k).isSome) →
      p.update_profile [(k, v)] now
        = { p with extraAttrs := dictSet p.extraAttrs k v,
                   last_updated := now }) := by
  simp only [declaredFields, List.mem_cons, List.not_mem_nil, or_false,
    not_or] at hd
  obtain ⟨h1, h2, h3, h4, h5, h6, h7, h8, h9, h10⟩ := hd
  have hset : ∀ q : UserProfile, q.extraAttrs = p.extraAttrs →
      setAttr q (k, v) =
        (if k ∈ classAttrNames ∨ (p.extraAttrs.lookup k).isSome then
          { q with extraAttrs := dictSet q.extraAttrs k v }
        else q) := by
    intro q hq
    simp only [setAttr]
    rw [if_neg h1, if_neg h2, if_neg h3, if_neg h4, if_neg h5, if_neg h6,
      if_neg h7, if_neg h8, if_neg h9, if_neg h10, hq]
  constructor
  · intro hno
    show { setAttr p (k, v) with last_updated := now }
      = { p with last_updated := now }
    rw [hset p rfl, if_neg hno]
  · intro hyes
    show { setAttr p (k, v) with last_updated := now }
      = { p with extraAttrs := dictSet p.extraAttrs k v,
                 last_updated := now }
    rw [hset p rfl, if_pos hyes]

/-- Witness for the amended C3: the unknown key "nonexistent_key" is
ignored; the method name "to_dict" is not. -/
theorem C3_amended_hasattr_guard_witness :
    (¬"nonexistent_key" ∈ declaredFields) ∧
    (¬("nonexistent_key" ∈ classAttrNames
        ∨ (samProfile.extraAttrs.lookup "nonexistent_key").isSome)) ∧
    samProfile.update_profile [("nonexistent_key", .str "x")] 7
      = { samProfile with last_updated := 7 } ∧
    (¬"to_dict" ∈ declaredFields) ∧
    ("to_dict" ∈ classAttrNames
        ∨ (samProfile.extraAttrs.lookup "to_dict").isSome) ∧
    samProfile.update_profile [("to_dict", .str "x")] 7
      = { samProfile with
            extraAttrs := dictSet samProfile.extraAttrs "to_dict" (.str "x"),
            last_updated := 7 } :=
  ⟨by decide, by decide,
    (C3_amended_hasattr_guard samProfile "nonexistent_key" (.str "x") 7
      (by decide)).1 (by decide),
    by decide, by decide,
    (C3_amended_hasattr_guard samProfile "to_dict" (.str "x") 7
      (by decide)).2 (by decide)⟩

/-- Claim C8 as stated is false on the code for the declared field
`last_updated`: the update loop sets it to the given value, but
`update_profile` then overwrites it with the current time, so the field
does not end up at the given value.  Concretely: updating
`{"last_updated": 0}` at time 7 succeeds yet leaves `last_updated = 7`. -/
theorem C8_counterexample :
    (samManager.update_profile "u1" [("last_updated", .num 0)] 7).1 = true
    ∧ ((((samManager.update_profile "u1" [("last_updated", .num 0)] 7).2
          ).profiles.lookup "u1").map UserProfile.last_updated)
        = some 7
    ∧ ¬(7 : Nat) = 0 :=
  ⟨rfl, rfl, by decide⟩

/-- Claim C8, amended: for a known user id and a single-field update on a
declared field other than `last_updated` (with a value of that field's
shape), update returns success, sets exactly that field to the given value
and `last_updated` to the call time — which is ≥ the prior `last_updated`
when the clock has not gone backwards — leaves every other field of the
profile unchanged, and leaves every other profile in the store unchanged;
for the field `last_updated` itself the given value is overwritten by the
call time. -/
theorem C8_amended_single_field_update (m : UserProfileManager)
    (uid : String) (p : UserProfile) (now : Nat)
    (hp : m.profiles.lookup uid = some p) (hmono : p.last_updated ≤ now) :
    (∀ kwargs, (m.update_profile uid kwargs now).1 = true
      ∧ ((m.update_profile uid kwargs now).2).profiles.lookup uid
          = some (p.update_profile kwargs now)
      ∧ ∀ k, ¬k = uid →
          ((m.update_profile uid kwargs now).2).profiles.lookup k
            = m.profiles.lookup k)
    ∧ (∀ kwargs, p.last_updated
        ≤ (p.update_profile kwargs now).last_updated)
    ∧ (∀ v, p.update_profile [("user_id", .str v)] now
        = { p with user_id := v, last_updated := now })
    ∧ (∀ v, p.update_profile [("name", .str v)] now
        = { p with name := v, last_updated := now })
    ∧ (∀ v, p.update_profile [("city", .str v)] now
        = { p with city := v, last_updated := now })
    ∧ (∀ v, p.update_profile [("interests", .strList v)] now
        = { p with interests := v, last_updated := now })
    ∧ (∀ v, p.update_profile [("profession", .str v)] now
        = { p with profession := v, last_updated := now })
    ∧ (∀ v, p.update_profile [("expertise_level", .str v)] now
        = { p with expertise_level := v, last_updated := now })
    ∧ (∀ v, p.update_profile [("preferred_topics", .strList v)] now
        = { p with preferred_topics := v, last_updated := now })
    ∧ (∀ v, p.update_profile [("created_at", .num v)] now
        = { p with created_at := v, last_updated := now })
    ∧ (∀ v, p.update_profile [("interaction_count", .num v)] now
        = { p with interaction_count := v, last_updated := now })
    ∧ (∀ v, p.update_profile [("last_updated", .num v)] now
        = { p with last_updated := now }) := by
  refine ⟨fun kwargs => ?_, fun kwargs => hmono, fun v => rfl, fun v => rfl,
    fun v => rfl, fun v => rfl, fun v => rfl, fun v => rfl, fun v => rfl,
    fun v => rfl, fun v => rfl, fun v => rfl⟩
  unfold UserProfileManager.update_profile
  rw [hp]
  exact ⟨rfl, lookup_dictSet_self _ _ _,
    fun k hk => lookup_dictSet_ne _ _ hk⟩

/-- Witness for the amended C8 at the concrete store `samManager`,
exercising the success flag, the store frame and the `city` field
equation. -/
theorem C8_amended_single_field_update_witness :
    samManager.profiles.lookup "u1" = some samProfile
    ∧ samProfile.last_updated ≤ 7
    ∧ (samManager.update_profile "u1" [("city", .str "Lahore")] 7).1 = true
    ∧ ((samManager.update_profile "u1" [("city", .str "Lahore")] 7).2
        ).profiles.lookup "zz" = samManager.profiles.lookup "zz"
    ∧ samProfile.update_profile [("city", .str "Lahore")] 7
        = { samProfile with city := "Lahore", last_updated := 7 } :=
  ⟨rfl, by decide,
    ((C8_amended_single_field_update samManager "u1" samProfile 7 rfl
        (by decide)).1 [("city", .str "Lahore")]).1,
    ((C8_amended_single_field_update samManager "u1" samProfile 7 rfl
        (by decide)).1 [("city", .str "Lahore")]).2.2 "zz" (by decide),
    (C8_amended_single_field_update samManager "u1" samProfile 7 rfl
        (by decide)).2.2.2.2.1 "Lahore"⟩

/-- Claim C5: the personalization context is a function of the profile
alone; any profile with an empty name yields the empty string, and a
profile with name "Alex" and every other optional field empty/default
yields exactly the fixed sentence, with no stray clause separators. -/
theorem C5_personalization_context :
    (∀ p : UserProfile, p.name = "" →
      p.get_personalization_context = "")
    ∧ (UserProfile.get_personalization_context
        { user_id := "u2", name := "Alex", city := "", interests := [],
          profession := "", expertise_level := "beginner",
          preferred_topics := [], created_at := 0, last_updated := 0,
          interaction_count := 0, extraAttrs := [] }
        = "You\x27re helping Alex. Personalize examples and explanations accordingly.") := by
  constructor
  · intro p h
    unfold UserProfile.get_personalization_context
    rw [if_pos h]
  · rfl

/-- Witness for C5: a freshly constructed profile has an empty name and an
empty personalization context. -/
theorem C5_personalization_context_witness :
    (UserProfile.init none "aaaabbbb" 0).name = ""
    ∧ (UserProfile.init none "aaaabbbb" 0).get_personalization_context
        = "" :=
  ⟨rfl, C5_personalization_context.1 (UserProfile.init none "aaaabbbb" 0)
    rfl⟩

/-- The serialization round trip of a single profile: `from_dict` after
`to_dict` restores every declared field, except that a falsy stored
`user_id` is replaced by the generated id (and shadow attributes, which
`to_dict` does not serialize, come back empty). -/
theorem from_dict_to_dict (p : UserProfile) (genId : String) :
    UserProfile.from_dict genId p.to_dict
      = some { p with
          user_id := if p.user_id = "" then genId else p.user_id,
          extraAttrs := [] } := by
  simp only [UserProfile.from_dict, UserProfile.to_dict, UserProfile.init,
    fromisoformat_isoformat, Option.bind_eq_bind, Option.some_bind]
  rfl

/-- Claim C6 as stated is false on the code at a profile whose `user_id`
is the empty string: `from_dict(to_dict(p))` runs `__init__` on the stored
id, and the falsy empty string is replaced by a freshly generated id
(always 8 characters, never empty), so the `user_id` field is not
preserved. -/
theorem C6_counterexample :
    emptyIdProfile.user_id = ""
    ∧ GeneratedId "aaaabbbb"
    ∧ ((UserProfile.from_dict "aaaabbbb" emptyIdProfile.to_dict).map
        UserProfile.user_id) = some "aaaabbbb"
    ∧ ¬("aaaabbbb" : String) = "" := by
  refine ⟨rfl, rfl, ?_, by decide⟩
  rw [from_dict_to_dict]
  rfl

/-- Claim C6, amended: for every profile whose `user_id` is non-empty,
deserializing its serialized dictionary restores every declared field —
`user_id`, `name`, `city`, `interests`, `profession`, `expertise_level`,
`preferred_topics`, `created_at`, `last_updated`, `interaction_count` —
exactly, timestamps included; when `user_id` is the empty string, the
round trip instead installs the generated id. -/
theorem C6_roundtrip_amended (p : UserProfile) (genId : String) :
    (¬p.user_id = "" →
      UserProfile.from_dict genId p.to_dict
        = some { p with extraAttrs := [] })
    ∧ (p.user_id = "" →
      UserProfile.from_dict genId p.to_dict
        = some { p with user_id := genId, extraAttrs := [] }) := by
  constructor
  · intro hid
    rw [from_dict_to_dict, if_neg hid]
  · intro hid
    rw [from_dict_to_dict, if_pos hid]

/-- Witness for the amended C6 at the concrete profile `samProfile`. -/
theorem C6_roundtrip_amended_witness :
    (¬samProfile.user_id = "")
    ∧ UserProfile.from_dict "aaaabbbb" samProfile.to_dict
        = some { samProfile with extraAttrs := [] } :=
  ⟨by decide,
    (C6_roundtrip_amended samProfile "aaaabbbb").1 (by decide)⟩

/-- Claim C7: construction from a missing backing file, from an unreadable
or unparseable one, and from a parsed one whose records fail to rebuild
(e.g. a timestamp that does not parse) all yield an empty store; every
failure is absorbed (the model is total — nothing is raised), and no
partial set of profiles is retained. -/
theorem C7_load_failure_empty (path genId : String) :
    (UserProfileManager.init path .missing genId).profiles = []
    ∧ (UserProfileManager.init path .unreadable genId).profiles = []
    ∧ ∀ entries,
        entries.mapM
          (fun kv => (UserProfile.from_dict genId kv.2).map ((kv.1, ·)))
          = none →
        (UserProfileManager.init path (.parsed entries) genId).profiles
          = [] := by
  refine ⟨rfl, rfl, fun entries h => ?_⟩
  simp only [UserProfileManager.init, load_profiles, h]

/-- Witness for C7: a stored record whose `created_at` text is not a valid
timestamp makes the rebuild fail, and the store comes up empty in all
three failure modes. -/
theorem C7_load_failure_empty_witness :
    ([(("u1" : String), badDict)].mapM
        (fun kv =>
          (UserProfile.from_dict "aaaabbbb" kv.2).map ((kv.1, ·))) = none)
    ∧ (UserProfileManager.init "user_profiles.json" .missing
        "aaaabbbb").profiles = []
    ∧ (UserProfileManager.init "user_profiles.json" .unreadable
        "aaaabbbb").profiles = []
    ∧ (UserProfileManager.init "user_profiles.json"
        (.parsed [("u1", badDict)]) "aaaabbbb").profiles = [] :=
  ⟨rfl,
    (C7_load_failure_empty "user_profiles.json" "aaaabbbb").1,
    (C7_load_failure_empty "user_profiles.json" "aaaabbbb").2.1,
    (C7_load_failure_empty "user_profiles.json" "aaaabbbb").2.2
      [("u1", badDict)] rfl⟩

/-- The end-to-end flow of claim C4: construct the manager over a missing
backing file, create "u1" through `get_or_create_profile` at the random
outcome `c`, update its city to "Lahore", and read the personalization
context of the stored profile. -/
def c4_flow (c : MockChoice) : String :=
  let m1 := UserProfileManager.init "user_profiles.json" .missing "aaaabbbb"
  let r1 := m1.get_or_create_profile (some "u1") 0 "aaaabbbb" c
  let r2 := (r1.2).update_profile "u1" [("city", .str "Lahore")] 1
  match (r2.2).profiles.lookup "u1" with
  | some q => q.get_personalization_context
  | none => ""

/-- Claim C4 as stated is false on the code: a freshly created profile is
always mock-populated with a non-empty profession, 2–4 interests and 1–3
preferred topics, so the context after `update("u1", {"city": "Lahore"})`
carries extra clauses.  At the legitimate random outcome `mockChoiceA`
(which draws the name "Sam") the context is not the claimed two-clause
sentence. -/
theorem C4_counterexample :
    ValidChoice mockChoiceA
    ∧ mockNames.getD mockChoiceA.nameI "" = "Sam"
    ∧ ¬c4_flow mockChoiceA
        = "You\x27re helping Sam from Lahore. Personalize examples and explanations accordingly." :=
  ⟨by decide, rfl, by decide⟩

/-- Claim C4, amended: `update("u1", {"city": "Lahore"})` yields exactly
the context "You're helping Sam from Lahore. Personalize examples and
explanations accordingly." when the stored "u1" profile has name "Sam" and
empty/default other optional fields — not for a freshly `getOrCreate`d
"u1", whose mock-populated fields add further clauses. -/
theorem C4_amended_context :
    ((((samManager.update_profile "u1" [("city", .str "Lahore")] 7).2
        ).profiles.lookup "u1").map
        UserProfile.get_personalization_context)
      = some "You\x27re helping Sam from Lahore. Personalize examples and explanations accordingly." :=
  rfl
